import Mathlib

/-!
Shallow embedding of the CampHub authenticated API client (the frontend
service module built around localStorage-backed token storage:
getAccessToken, getRefreshToken, getDefaultHeaders, refreshToken,
fetchAPI, login, logout).

Modelling choices:
* localStorage is an association list from string keys to string values
  (`Storage`); getItem / setItem / removeItem mirror the Web Storage API.
* The network is an oracle `Env : Nat -> Except Unit Response` consumed in
  the order the client issues fetches; `Except.error ()` is a transport
  (network) failure, `Except.ok r` a delivered HTTP response.  Each client
  operation returns a `CallEffect`: the list of observable events (requests
  issued, refresh attempts), the next unused oracle index, the storage
  after the operation, and the JavaScript result (resolved value or thrown
  error).
* JSON bodies are a small inductive `Json` covering exactly the shapes the
  client inspects (null, strings, objects).  JavaScript property access,
  truthiness and string coercion are modelled by jsIndex, jsonTruthy and
  jsToString, including the TypeError on member access of null/undefined.
* In the source, the retried call is `return fetchAPI(endpoint, method,
  body, isFormData, false)` issued inside the try block WITHOUT `await`:
  the returned promise is adopted by the async function after the frame
  has left the try, so a rejection of the retried call does NOT trigger
  the `catch (refreshErr)` cleanup.  The embedding therefore propagates
  the inner result unchanged.  The bounded recursion (the only recursive
  call passes `retry = false`, which disables the 401 branch) is unfolded:
  `fetchAPIGo` is the behaviour with `retry = false`, and
  `fetchAPI env n st e m b f false = fetchAPIGo env n st e m b f` holds
  definitionally (theorem fetchAPI_false below).
-/

namespace CampHub

/-- JSON values, as far as the client inspects them. -/
inductive Json where
  | null : Json
  | str : String → Json
  | obj : List (String × Json) → Json

/-- Errors thrown by the client (each constructor stands for one distinct
JavaScript Error raised by the source code). -/
inductive ClientError where
  /-- The fetch promise rejected (transport failure). -/
  | networkError : ClientError
  /-- `res.json()` failed to parse the body. -/
  | parseError : ClientError
  /-- JavaScript TypeError: member access on null / undefined. -/
  | typeError : ClientError
  /-- "No refresh token found". -/
  | noRefreshToken : ClientError
  /-- "Unable to refresh token". -/
  | unableToRefresh : ClientError
  /-- "Session expired. Please log in again.". -/
  | sessionExpired : ClientError
  /-- "Error <status>: <text>" from a non-ok response. -/
  | httpError (status : Nat) (text : String) : ClientError
  /-- "Login failed: invalid response". -/
  | loginFailed : ClientError
deriving DecidableEq

/-- An HTTP response as the client observes it: status, the body as text
(`res.text()`), and the body as parsed JSON (`res.json()`; `none` means
the parse would throw). -/
structure Response where
  status : Nat
  bodyText : String
  bodyJson : Option Json

/-- `res.ok`: status in the inclusive range 200..299. -/
def Response.ok (r : Response) : Bool :=
  200 ≤ r.status && r.status ≤ 299

/-- Client-side durable key-value storage (localStorage). -/
abbrev Storage := List (String × String)

/-- The network oracle: the i-th fetch issued during an operation receives
`env i`; `Except.error ()` models a rejected fetch (network failure). -/
abbrev Env := Nat → Except Unit Response

/-- An outbound HTTP request as built by the client.  The body is kept as
the JSON value handed to the client (serialization is not modelled; no
claim inspects the serialized text). -/
structure Request where
  url : String
  method : String
  headers : List (String × String)
  body : Option Json

/-- Observable events of one client operation, in order. -/
inductive Event where
  /-- fetchAPI issued an HTTP request; the flag records the value of the
  retry parameter of the invocation that issued it. -/
  | apiRequest (retryFlag : Bool) (req : Request) : Event
  /-- refreshToken was invoked (a token-refresh attempt). -/
  | refreshCall : Event
  /-- refreshToken issued its HTTP request. -/
  | refreshRequest (req : Request) : Event

/-- Full observable effect of one client operation. -/
structure CallEffect (α : Type) where
  events : List Event
  next : Nat
  store : Storage
  result : Except ClientError α

/-- Build-time configuration value `import.meta.env.VITE_BASE_URL`; the
claims do not depend on its contents. -/
def API_URL : String := "VITE_BASE_URL/"

/-- Fixed storage key of the access token. -/
def accessKey : String := "camphub_user_access"

/-- Fixed storage key of the refresh token. -/
def refreshKey : String := "camphub_user_refresh"

/-- localStorage.getItem. -/
def getItem (st : Storage) (k : String) : Option String :=
  (st.find? (fun p => p.1 == k)).map (fun p => p.2)

/-- localStorage.removeItem. -/
def removeItem (st : Storage) (k : String) : Storage :=
  st.filter (fun p => p.1 != k)

/-- localStorage.setItem. -/
def setItem (st : Storage) (k v : String) : Storage :=
  (k, v) :: removeItem st k

/-- JavaScript truthiness of a string read from storage: absent (null) and
the empty string are falsy. -/
def truthy : Option String → Bool
  | none => false
  | some s => !s.isEmpty

/-- Source: `const getAccessToken = () => localStorage.getItem("camphub_user_access")`. -/
def getAccessToken (st : Storage) : Option String := getItem st accessKey

/-- Source: `const getRefreshToken = () => localStorage.getItem("camphub_user_refresh")`. -/
def getRefreshToken (st : Storage) : Option String := getItem st refreshKey

/-- The Authorization header entry, attached exactly when the stored
access token is truthy (both in getDefaultHeaders and in the isFormData
branch of fetchAPI, which read the token the same way). -/
def bearerHeader (st : Storage) : List (String × String) :=
  if truthy (getAccessToken st) then
    [("Authorization", "Bearer " ++ (getAccessToken st).getD "")]
  else []

/-- Source getDefaultHeaders: a JSON content type always, plus the bearer
header when a token is present. -/
def getDefaultHeaders (st : Storage) : List (String × String) :=
  ("Content-Type", "application/json") :: bearerHeader st

/-- JavaScript member access `base.k` where the base may be absent
(undefined): throws TypeError on null/undefined, yields undefined on a
string primitive, looks the key up on an object. -/
def jsIndex : Option Json → String → Except ClientError (Option Json)
  | none, _ => .error .typeError
  | some .null, _ => .error .typeError
  | some (.str _), _ => .ok none
  | some (.obj fs), k => .ok ((fs.find? (fun p => p.1 == k)).map (fun p => p.2))

/-- JavaScript truthiness of a possibly-undefined JSON value. -/
def jsonTruthy : Option Json → Bool
  | none => false
  | some .null => false
  | some (.str s) => !s.isEmpty
  | some (.obj _) => true

/-- String coercion applied by localStorage.setItem to its argument. -/
def jsToString : Option Json → String
  | none => "undefined"
  | some .null => "null"
  | some (.str s) => s
  | some (.obj _) => "[object Object]"

/-- The HTTP request issued by refreshToken: POST to the fixed refresh
endpoint, JSON content type only (no bearer header), body carrying the
refresh token. -/
def mkRefreshRequest (refresh : String) : Request :=
  { url := API_URL ++ "auth/token/refresh/"
    method := "POST"
    headers := [("Content-Type", "application/json")]
    body := some (.obj [("refresh", .str refresh)]) }

/-- Source refreshToken: read the refresh token (falsy check), fail with
"No refresh token found" when absent; otherwise POST it to the refresh
endpoint; on network failure propagate the rejection; on a non-ok
response fail with "Unable to refresh token"; otherwise parse the body,
store `data.access` (string-coerced) under the access key and return it. -/
def refreshToken (env : Env) (n : Nat) (st : Storage) : CallEffect String :=
  let refresh? := getRefreshToken st
  if truthy refresh? = false then
    { events := [.refreshCall], next := n, store := st,
      result := .error .noRefreshToken }
  else
    let req := mkRefreshRequest (refresh?.getD "")
    match env n with
    | .error _ =>
      { events := [.refreshCall, .refreshRequest req], next := n + 1,
        store := st, result := .error .networkError }
    | .ok res =>
      if res.ok = false then
        { events := [.refreshCall, .refreshRequest req], next := n + 1,
          store := st, result := .error .unableToRefresh }
      else
        match res.bodyJson with
        | none =>
          { events := [.refreshCall, .refreshRequest req], next := n + 1,
            store := st, result := .error .parseError }
        | some data =>
          match jsIndex (some data) "access" with
          | .error e =>
            { events := [.refreshCall, .refreshRequest req], next := n + 1,
              store := st, result := .error e }
          | .ok access =>
            { events := [.refreshCall, .refreshRequest req], next := n + 1,
              store := setItem st accessKey (jsToString access),
              result := .ok (jsToString access) }

/-- Header construction of fetchAPI: bearer-only object for binary form
payloads, getDefaultHeaders otherwise. -/
def buildHeaders (st : Storage) (isFormData : Bool) : List (String × String) :=
  if isFormData then bearerHeader st else getDefaultHeaders st

/-- The HTTP request fetchAPI issues for the given arguments and current
storage. -/
def buildRequest (st : Storage) (endpoint method : String) (body : Option Json)
    (isFormData : Bool) : Request :=
  { url := API_URL ++ endpoint
    method := method
    headers := buildHeaders st isFormData
    body := body }

/-- Response handling of fetchAPI after the 401-retry branch was not
taken: non-ok responses throw "Error <status>: <text>"; status 204
resolves to the empty result without touching the body; any other ok
status resolves to the parsed JSON body (throwing on a parse failure). -/
def handleOk (res : Response) : Except ClientError (Option Json) :=
  if res.ok = false then .error (.httpError res.status res.bodyText)
  else if res.status ≠ 204 then
    match res.bodyJson with
    | none => .error .parseError
    | some j => .ok (some j)
  else .ok none

/-- fetchAPI with `retry = false`: the 401 branch is disabled (the source
condition `res.status === 401 && retry` is false), so the call issues
exactly one request and hands the response to handleOk. -/
def fetchAPIGo (env : Env) (n : Nat) (st : Storage) (endpoint method : String)
    (body : Option Json) (isFormData : Bool) : CallEffect (Option Json) :=
  let req := buildRequest st endpoint method body isFormData
  match env n with
  | .error _ =>
    { events := [.apiRequest false req], next := n + 1, store := st,
      result := .error .networkError }
  | .ok res =>
    { events := [.apiRequest false req], next := n + 1, store := st,
      result := handleOk res }

/-- Source fetchAPI.  With `retry = true`: issue the request; on a 401
run refreshToken; if the refresh succeeds, reissue the identical request
with retry forced false (the recursive call, unfolded here into
fetchAPIGo) and return its outcome unchanged (the source returns the
recursive promise without awaiting it inside the try block, so a failure
of the reissued call bypasses the catch); if the refresh fails, remove
both tokens and throw "Session expired.".  Non-401 responses go to
handleOk.  With `retry = false` the behaviour is fetchAPIGo. -/
def fetchAPI (env : Env) (n : Nat) (st : Storage) (endpoint method : String)
    (body : Option Json) (isFormData : Bool) (retry : Bool) :
    CallEffect (Option Json) :=
  match retry with
  | false => fetchAPIGo env n st endpoint method body isFormData
  | true =>
    let req := buildRequest st endpoint method body isFormData
    match env n with
    | .error _ =>
      { events := [.apiRequest true req], next := n + 1, store := st,
        result := .error .networkError }
    | .ok res =>
      if res.status = 401 then
        let rEff := refreshToken env (n + 1) st
        match rEff.result with
        | .ok _ =>
          let inner := fetchAPIGo env rEff.next rEff.store endpoint method body isFormData
          { events := .apiRequest true req :: rEff.events ++ inner.events,
            next := inner.next, store := inner.store, result := inner.result }
        | .error _ =>
          { events := .apiRequest true req :: rEff.events, next := rEff.next,
            store := removeItem (removeItem rEff.store accessKey) refreshKey,
            result := .error .sessionExpired }
      else
        { events := [.apiRequest true req], next := n + 1, store := st,
          result := handleOk res }

/-- Source login: call fetchAPI("auth/login/", "POST", data); then read
`res.data.access` and `res.data.refresh` (member access may throw a
TypeError when `res` or `res.data` is null/undefined); when both are
truthy store them under the two token keys and return the response,
otherwise throw "Login failed: invalid response". -/
def login (env : Env) (n : Nat) (st : Storage) (creds : Json) :
    CallEffect (Option Json) :=
  let eff := fetchAPI env n st "auth/login/" "POST" (some creds) false true
  match eff.result with
  | .error e => { eff with result := .error e }
  | .ok v =>
    match jsIndex v "data" with
    | .error e => { eff with result := .error e }
    | .ok dataV =>
      match jsIndex dataV "access" with
      | .error e => { eff with result := .error e }
      | .ok accessV =>
        if jsonTruthy accessV = false then
          { eff with result := .error .loginFailed }
        else
          match jsIndex dataV "refresh" with
          | .error e => { eff with result := .error e }
          | .ok refreshV =>
            if jsonTruthy refreshV = false then
              { eff with result := .error .loginFailed }
            else
              { eff with
                store := setItem (setItem eff.store accessKey (jsToString accessV))
                  refreshKey (jsToString refreshV)
                result := .ok v }

/-- Source logout: invoke fetchAPI("auth/logout/", "POST") (the promise is
not awaited; its errors are not observed), then unconditionally call
localStorage.removeItem("access_token") and
localStorage.removeItem("refresh_token") — note these are NOT the keys the
client stores its tokens under. -/
def logout (env : Env) (n : Nat) (st : Storage) : CallEffect Unit :=
  let eff := fetchAPI env n st "auth/logout/" "POST" none false true
  { events := eff.events, next := eff.next,
    store := removeItem (removeItem eff.store "access_token") "refresh_token",
    result := .ok () }

/-- Recognizes a token-refresh attempt in an event trace. -/
def isRefreshCall : Event → Bool
  | .refreshCall => true
  | _ => false

/-- Recognizes a reissued request (one sent by an invocation whose retry
flag is false) in an event trace. -/
def isReissuedRequest : Event → Bool
  | .apiRequest false _ => true
  | _ => false

/-- Failures of a call other than the session-expired path: transport
failure, JSON parse failure, or a non-ok HTTP response surfaced as an
error embedding status and body text. -/
def isLocalFailure : ClientError → Bool
  | .networkError => true
  | .parseError => true
  | .httpError _ _ => true
  | _ => false

/-! Concrete fixtures used by the counterexamples and witnesses. -/

/-- A 401 response. -/
def res401 : Response := { status := 401, bodyText := "unauthorized", bodyJson := none }

/-- A 200 response with the given JSON body. -/
def res200 (j : Json) : Response := { status := 200, bodyText := "", bodyJson := some j }

/-- A successful refresh-endpoint response carrying access token "NEW". -/
def resRefreshOk : Response := res200 (.obj [("access", .str "NEW")])

/-- A 500 response. -/
def res500 : Response := { status := 500, bodyText := "boom", bodyJson := none }

/-- A 204 response (no content; the body would not parse). -/
def res204 : Response := { status := 204, bodyText := "", bodyJson := none }

/-- Every fetch receives a 401. -/
def env401 : Env := fun _ => .ok res401

/-- Fetch 0 receives a 401, fetch 1 a successful refresh, every later
fetch a 401 again. -/
def envRefreshThen401 : Env := fun i =>
  if i = 1 then .ok resRefreshOk else .ok res401

/-- Fetch 0 receives a 401, fetch 1 a successful refresh, every later
fetch a 500. -/
def envRefreshThen500 : Env := fun i =>
  if i = 0 then .ok res401 else if i = 1 then .ok resRefreshOk else .ok res500

/-- Every fetch receives a 500. -/
def env500 : Env := fun _ => .ok res500

/-- Every fetch receives a 204. -/
def env204 : Env := fun _ => .ok res204

/-- Every fetch receives a 200 with an empty JSON object body. -/
def envOkEmpty : Env := fun _ => .ok (res200 (.obj []))

/-- Every fetch receives a 200 whose body is the flat object
`access = "A1", refresh = "R1"` (no data wrapper). -/
def envLoginFlat : Env := fun _ =>
  .ok (res200 (.obj [("access", .str "A1"), ("refresh", .str "R1")]))

/-- Every fetch receives a 200 whose body wraps the token pair in a data
field, the shape the source login code reads. -/
def envLoginWrapped : Env := fun _ =>
  .ok (res200 (.obj [("data", .obj [("access", .str "A1"), ("refresh", .str "R1")])]))

/-- Storage holding access token "OLD" and refresh token "R1". -/
def stTokens : Storage := [(accessKey, "OLD"), (refreshKey, "R1")]

/-- Example login credentials body. -/
def credsEx : Json := .obj [("email", .str "e"), ("password", .str "p")]

/-! Storage lemmas. -/

/-- The two token keys differ. -/
theorem accessKey_ne_refreshKey : accessKey ≠ refreshKey := by decide

/-- Looking up a key right after removing it yields nothing. -/
theorem getItem_removeItem_self (st : Storage) (k : String) :
    getItem (removeItem st k) k = none := by
  induction st with
  | nil => rfl
  | cons a t ih =>
    by_cases h : a.1 = k
    · simp only [removeItem, List.filter_cons, h, bne_self_eq_false, List.filter] at ih ⊢
      exact ih
    · simp only [removeItem, List.filter_cons] at ih ⊢
      simp only [getItem, removeItem] at ih
      simp [getItem, List.find?_cons, h, ih]

/-- Removing one key does not change lookups of another. -/
theorem getItem_removeItem_ne (st : Storage) (k k' : String) (h : k ≠ k') :
    getItem (removeItem st k) k' = getItem st k' := by
  induction st with
  | nil => rfl
  | cons a t ih =>
    by_cases ha : a.1 = k
    · simpa [getItem, removeItem, List.filter_cons, List.find?_cons, ha, h, Ne.symm h]
        using ih
    · by_cases hb : a.1 = k'
      · simp [getItem, removeItem, List.filter_cons, List.find?_cons, ha, hb, Ne.symm h]
      · simpa [getItem, removeItem, List.filter_cons, List.find?_cons, ha, hb] using ih

/-- Looking up a key right after setting it yields the written value. -/
theorem getItem_setItem_self (st : Storage) (k v : String) :
    getItem (setItem st k v) k = some v := by
  simp [getItem, setItem, List.find?_cons]

/-- Setting one key does not change lookups of another. -/
theorem getItem_setItem_ne (st : Storage) (k k' v : String) (h : k ≠ k') :
    getItem (setItem st k v) k' = getItem st k' := by
  have := getItem_removeItem_ne st k k' h
  simpa [getItem, setItem, List.find?_cons, h] using this

/-! Characterization lemmas for the client operations. -/

/-- A call with the retry flag already false is exactly the non-retrying
behaviour: the recursion of the source bottoms out after one reissue. -/
theorem fetchAPI_false (env : Env) (n : Nat) (st : Storage) (e m : String)
    (b : Option Json) (f : Bool) :
    fetchAPI env n st e m b f false = fetchAPIGo env n st e m b f := rfl

/-- The non-retrying behaviour never touches storage. -/
theorem fetchAPIGo_store (env : Env) (n : Nat) (st : Storage) (e m : String)
    (b : Option Json) (f : Bool) :
    (fetchAPIGo env n st e m b f).store = st := by
  unfold fetchAPIGo
  cases env n <;> rfl

/-- The non-retrying behaviour issues exactly one request, built from the
current storage. -/
theorem fetchAPIGo_events (env : Env) (n : Nat) (st : Storage) (e m : String)
    (b : Option Json) (f : Bool) :
    (fetchAPIGo env n st e m b f).events =
      [.apiRequest false (buildRequest st e m b f)] := by
  unfold fetchAPIGo
  cases env n <;> rfl

/-- refreshToken either fails leaving storage unchanged, or succeeds
overwriting exactly the access key with the value it returns. -/
theorem refreshToken_cases (env : Env) (n : Nat) (st : Storage) :
    (∃ e, (refreshToken env n st).result = .error e ∧
      (refreshToken env n st).store = st) ∨
    (∃ a, (refreshToken env n st).result = .ok a ∧
      (refreshToken env n st).store = setItem st accessKey a) := by
  simp only [refreshToken]
  repeat' split
  all_goals first
    | exact .inl ⟨_, rfl, rfl⟩
    | exact .inr ⟨_, rfl, rfl⟩

/-- The event trace of refreshToken: the attempt marker alone (immediate
failure for lack of a token), or the marker followed by the single
refresh-endpoint request. -/
theorem refreshToken_events (env : Env) (n : Nat) (st : Storage) :
    (refreshToken env n st).events = [.refreshCall] ∨
    (refreshToken env n st).events =
      [.refreshCall, .refreshRequest (mkRefreshRequest ((getRefreshToken st).getD ""))] := by
  simp only [refreshToken]
  repeat' split
  all_goals first
    | exact .inl rfl
    | exact .inr rfl

/-- refreshToken contributes exactly one refresh attempt and no reissued
request to the event trace. -/
theorem refreshToken_events_count (env : Env) (n : Nat) (st : Storage) :
    (refreshToken env n st).events.countP isRefreshCall = 1 ∧
    (refreshToken env n st).events.countP isReissuedRequest = 0 := by
  rcases refreshToken_events env n st with h | h <;> rw [h] <;> exact ⟨rfl, rfl⟩

/-- refreshToken never changes the stored refresh token. -/
theorem refreshToken_store_refreshKey (env : Env) (n : Nat) (st : Storage) :
    getItem (refreshToken env n st).store refreshKey = getItem st refreshKey := by
  rcases refreshToken_cases env n st with ⟨e, _, hs⟩ | ⟨a, _, hs⟩
  · rw [hs]
  · rw [hs, getItem_setItem_ne _ _ _ _ accessKey_ne_refreshKey]

/-- An absent (falsy) stored refresh token, a transport failure, or a
non-ok refresh response each make refreshToken fail. -/
theorem refreshToken_fails (env : Env) (n : Nat) (st : Storage)
    (hfail : truthy (getRefreshToken st) = false ∨ env n = .error () ∨
      ∃ rr, env n = .ok rr ∧ rr.ok = false) :
    ∃ e, (refreshToken env n st).result = .error e := by
  simp only [refreshToken]
  rcases hfail with h | h | ⟨rr, h, hok⟩
  · simp only [h, if_pos]
    exact ⟨_, rfl⟩
  · by_cases ht : truthy (getRefreshToken st) = false
    · simp only [ht, if_pos]
      exact ⟨_, rfl⟩
    · simp only [ht, if_neg, if_false, h]
      exact ⟨_, rfl⟩
  · by_cases ht : truthy (getRefreshToken st) = false
    · simp only [ht, if_pos]
      exact ⟨_, rfl⟩
    · simp only [ht, if_neg, if_false, h, hok, if_pos]
      exact ⟨_, rfl⟩

/-- Every fetchAPI invocation starts by issuing the request built from
the current storage, tagged with its own retry flag. -/
theorem fetchAPI_first_event (env : Env) (n : Nat) (st : Storage) (e m : String)
    (b : Option Json) (f r : Bool) :
    ∃ rest, (fetchAPI env n st e m b f r).events =
      .apiRequest r (buildRequest st e m b f) :: rest := by
  cases r
  · rw [fetchAPI_false, fetchAPIGo_events]
    exact ⟨[], rfl⟩
  · simp only [fetchAPI]
    cases henv : env n with
    | error u => exact ⟨[], rfl⟩
    | ok res =>
      by_cases h4 : res.status = 401
      · simp only [h4, if_pos]
        rcases hr : (refreshToken env (n + 1) st).result with e0 | a
        · simp only [hr]
          exact ⟨_, rfl⟩
        · simp only [hr]
          exact ⟨_, rfl⟩
      · simp only [if_neg h4]
        exact ⟨[], rfl⟩

/-- Shape of a retry-eligible call whose first response is a 401 and whose
refresh attempt succeeds: the initial request, the refresh trace, then the
reissued non-retrying call, whose storage and outcome are final. -/
theorem fetchAPI_401_refresh_ok (env : Env) (n : Nat) (st : Storage) (e m : String)
    (b : Option Json) (f : Bool) (r0 : Response) (a : String)
    (h : env n = .ok r0) (h401 : r0.status = 401)
    (hr : (refreshToken env (n + 1) st).result = .ok a) :
    (fetchAPI env n st e m b f true).events =
      .apiRequest true (buildRequest st e m b f) ::
        (refreshToken env (n + 1) st).events ++
        (fetchAPIGo env (refreshToken env (n + 1) st).next
          (refreshToken env (n + 1) st).store e m b f).events ∧
    (fetchAPI env n st e m b f true).store =
      (fetchAPIGo env (refreshToken env (n + 1) st).next
        (refreshToken env (n + 1) st).store e m b f).store ∧
    (fetchAPI env n st e m b f true).result =
      (fetchAPIGo env (refreshToken env (n + 1) st).next
        (refreshToken env (n + 1) st).store e m b f).result := by
  simp only [fetchAPI, h, h401, if_pos, hr]
  exact ⟨trivial, trivial, trivial⟩

/-- Shape of a retry-eligible call whose first response is a 401 and whose
refresh attempt fails: no reissue, both token keys removed, and the call
throws the session-expired error. -/
theorem fetchAPI_401_refresh_err (env : Env) (n : Nat) (st : Storage) (e m : String)
    (b : Option Json) (f : Bool) (r0 : Response) (e0 : ClientError)
    (h : env n = .ok r0) (h401 : r0.status = 401)
    (hr : (refreshToken env (n + 1) st).result = .error e0) :
    (fetchAPI env n st e m b f true).events =
      .apiRequest true (buildRequest st e m b f) ::
        (refreshToken env (n + 1) st).events ∧
    (fetchAPI env n st e m b f true).store =
      removeItem (removeItem (refreshToken env (n + 1) st).store accessKey) refreshKey ∧
    (fetchAPI env n st e m b f true).result = .error .sessionExpired := by
  simp only [fetchAPI, h, h401, if_pos, hr]
  exact ⟨trivial, trivial, trivial⟩

/-- Shape of a retry-eligible call whose first response is not a 401: one
request, unchanged storage, outcome decided by handleOk. -/
theorem fetchAPI_non401 (env : Env) (n : Nat) (st : Storage) (e m : String)
    (b : Option Json) (f : Bool) (r0 : Response)
    (h : env n = .ok r0) (h401 : r0.status ≠ 401) :
    fetchAPI env n st e m b f true =
      { events := [.apiRequest true (buildRequest st e m b f)], next := n + 1,
        store := st, result := handleOk r0 } := by
  simp only [fetchAPI, h, if_neg h401]

/-- Shape of a retry-eligible call whose fetch rejects: one request,
unchanged storage, the network error propagated. -/
theorem fetchAPI_netError (env : Env) (n : Nat) (st : Storage) (e m : String)
    (b : Option Json) (f : Bool)
    (h : env n = .error ()) :
    fetchAPI env n st e m b f true =
      { events := [.apiRequest true (buildRequest st e m b f)], next := n + 1,
        store := st, result := .error .networkError } := by
  simp only [fetchAPI, h]

/-- A successful refreshToken leaves the store with exactly the access
key overwritten by the returned value. -/
theorem refreshToken_ok_store (env : Env) (n : Nat) (st : Storage) (a : String)
    (hr : (refreshToken env n st).result = .ok a) :
    (refreshToken env n st).store = setItem st accessKey a := by
  rcases refreshToken_cases env n st with ⟨e0, he, _⟩ | ⟨a', ha', hs⟩
  · rw [hr] at he
    cases he
  · rw [hr] at ha'
    injection ha' with haa
    subst haa
    exact hs

/-! Claim theorems. -/

/-- C1 (amended): for every call whose first response is 401 with the
retry flag true, exactly one token-refresh attempt occurs and at most one
reissued request; when the refresh succeeds, the trace is exactly the
initial request, the refresh trace, then one reissued request sent by the
invocation with the retry flag forced false; when the refresh fails, no
reissued request occurs at all — the recursion is bounded to depth one. -/
theorem fetchAPI_retry_bounded (env : Env) (n : Nat) (st : Storage) (e m : String)
    (b : Option Json) (f : Bool) (r0 : Response)
    (h : env n = .ok r0) (h401 : r0.status = 401) :
    (fetchAPI env n st e m b f true).events.countP isRefreshCall = 1 ∧
    (fetchAPI env n st e m b f true).events.countP isReissuedRequest ≤ 1 ∧
    (∀ a, (refreshToken env (n + 1) st).result = .ok a →
      (fetchAPI env n st e m b f true).events =
        .apiRequest true (buildRequest st e m b f) ::
          (refreshToken env (n + 1) st).events ++
          [.apiRequest false (buildRequest (refreshToken env (n + 1) st).store e m b f)]) ∧
    (∀ e0, (refreshToken env (n + 1) st).result = .error e0 →
      (fetchAPI env n st e m b f true).events.countP isReissuedRequest = 0) := by
  obtain ⟨hc1, hc0⟩ := refreshToken_events_count env (n + 1) st
  rcases hr : (refreshToken env (n + 1) st).result with e0 | a
  · obtain ⟨hev, _, _⟩ := fetchAPI_401_refresh_err env n st e m b f r0 e0 h h401 hr
    rw [hev]
    refine ⟨?_, ?_, ?_, ?_⟩
    · simp [List.countP_cons, isRefreshCall, hc1]
    · simp [List.countP_cons, isReissuedRequest, hc0]
    · intro a ha
      cases ha
    · intro e1 he1
      simp [List.countP_cons, isReissuedRequest, hc0]
  · obtain ⟨hev, _, _⟩ := fetchAPI_401_refresh_ok env n st e m b f r0 a h h401 hr
    rw [hev, fetchAPIGo_events]
    refine ⟨?_, ?_, ?_, ?_⟩
    · simp [List.countP_cons, List.countP_append, isRefreshCall, hc1]
    · simp [List.countP_cons, List.countP_append, isReissuedRequest, hc0]
    · intro a' ha'
      rfl
    · intro e1 he1
      cases he1

/-- C1 witness: a concrete 401-then-refresh-then-401 run performs one
refresh attempt and at most one reissue. -/
theorem fetchAPI_retry_bounded_witness :
    (fetchAPI envRefreshThen401 0 stTokens "users/profile/" "GET" none false
      true).events.countP isRefreshCall = 1 ∧
    (fetchAPI envRefreshThen401 0 stTokens "users/profile/" "GET" none false
      true).events.countP isReissuedRequest ≤ 1 :=
  ⟨(fetchAPI_retry_bounded envRefreshThen401 0 stTokens "users/profile/" "GET" none false
      res401 rfl rfl).1,
   (fetchAPI_retry_bounded envRefreshThen401 0 stTokens "users/profile/" "GET" none false
      res401 rfl rfl).2.1⟩

/-- C2: when the first response is a 401 with retry eligible and the
refresh attempt fails — no (truthy) stored refresh token, a transport
failure, or a non-ok refresh response — the call throws the
session-expired error and afterwards both token keys are absent from
storage (the two removals are part of the same cleanup). -/
theorem fetchAPI_refresh_failure_clears (env : Env) (n : Nat) (st : Storage)
    (e m : String) (b : Option Json) (f : Bool) (r0 : Response)
    (h : env n = .ok r0) (h401 : r0.status = 401)
    (hfail : truthy (getRefreshToken st) = false ∨ env (n + 1) = .error () ∨
      ∃ rr, env (n + 1) = .ok rr ∧ rr.ok = false) :
    (fetchAPI env n st e m b f true).result = .error .sessionExpired ∧
    getItem (fetchAPI env n st e m b f true).store accessKey = none ∧
    getItem (fetchAPI env n st e m b f true).store refreshKey = none := by
  obtain ⟨e0, hr⟩ := refreshToken_fails env (n + 1) st hfail
  obtain ⟨_, hst, hres⟩ := fetchAPI_401_refresh_err env n st e m b f r0 e0 h h401 hr
  refine ⟨hres, ?_, ?_⟩
  · rw [hst, getItem_removeItem_ne _ refreshKey accessKey (Ne.symm accessKey_ne_refreshKey),
      getItem_removeItem_self]
  · rw [hst, getItem_removeItem_self]

/-- C2 witness: a 401 whose refresh endpoint also answers 401 clears both
tokens and throws session-expired. -/
theorem fetchAPI_refresh_failure_clears_witness :
    (fetchAPI env401 0 stTokens "users/profile/" "GET" none false true).result =
      .error .sessionExpired ∧
    getItem (fetchAPI env401 0 stTokens "users/profile/" "GET" none false true).store
      accessKey = none ∧
    getItem (fetchAPI env401 0 stTokens "users/profile/" "GET" none false true).store
      refreshKey = none :=
  fetchAPI_refresh_failure_clears env401 0 stTokens "users/profile/" "GET" none false
    res401 rfl rfl (.inr (.inr ⟨res401, rfl, rfl⟩))

/-- C5 (code bug witness): evaluating logout on a state holding both
credentials under the fixed storage keys: the call completes, yet both
credentials are still present afterwards, because the source removes the
never-written keys "access_token" and "refresh_token" instead. -/
theorem logout_leaves_tokens :
    getItem (logout envOkEmpty 0 stTokens).store accessKey = some "OLD" ∧
    getItem (logout envOkEmpty 0 stTokens).store refreshKey = some "R1" :=
  ⟨rfl, rfl⟩

/-- C6: every fetchAPI invocation issues its request with exactly these
headers: for a binary form payload, the bearer header alone when a token
is present in storage and no headers otherwise; for any other body, the
JSON content type always, plus the bearer header exactly when a token is
present. -/
theorem fetchAPI_headers (env : Env) (n : Nat) (st : Storage) (e m : String)
    (b : Option Json) (f r : Bool) :
    ∃ rest, (fetchAPI env n st e m b f r).events =
      .apiRequest r (buildRequest st e m b f) :: rest ∧
      (buildRequest st e m b f).headers =
        (if f then
          (if truthy (getAccessToken st) then
            [("Authorization", "Bearer " ++ (getAccessToken st).getD "")]
          else [])
        else
          ("Content-Type", "application/json") ::
            (if truthy (getAccessToken st) then
              [("Authorization", "Bearer " ++ (getAccessToken st).getD "")]
            else [])) := by
  obtain ⟨rest, hrest⟩ := fetchAPI_first_event env n st e m b f r
  refine ⟨rest, hrest, ?_⟩
  cases f <;> simp [buildRequest, buildHeaders, getDefaultHeaders, bearerHeader]

/-- C9: a call whose response has status 204 resolves to the empty result
with no JSON parse attempted (the conclusion holds whatever the parse
outcome would be), and a call with any other ok response resolves to the
parsed JSON body. -/
theorem fetchAPI_204_and_json (env : Env) (n : Nat) (st : Storage) (e m : String)
    (b : Option Json) (f r : Bool) (res : Response)
    (h : env n = .ok res) :
    (res.status = 204 → (fetchAPI env n st e m b f r).result = .ok none) ∧
    (res.ok = true → res.status ≠ 204 → ∀ j, res.bodyJson = some j →
      (fetchAPI env n st e m b f r).result = .ok (some j)) := by
  constructor
  · intro h204
    have hne : res.status ≠ 401 := by omega
    have hres : handleOk res = .ok none := by
      simp [handleOk, Response.ok, h204]
    cases r
    · rw [fetchAPI_false]
      simp [fetchAPIGo, h, hres]
    · rw [fetchAPI_non401 env n st e m b f res h hne]
      exact hres
  · intro hok hn204 j hj
    have hne : res.status ≠ 401 := by
      have hb := hok
      simp [Response.ok] at hb
      omega
    have hres : handleOk res = .ok (some j) := by
      simp [handleOk, hok, hn204, hj]
    cases r
    · rw [fetchAPI_false]
      simp [fetchAPIGo, h, hres]
    · rw [fetchAPI_non401 env n st e m b f res h hne]
      exact hres

/-- C9 witness: a concrete 204 call resolves empty although its body
would not parse, and a concrete 200 call resolves to its JSON body. -/
theorem fetchAPI_204_and_json_witness :
    (fetchAPI env204 0 [] "academic/courses/" "GET" none false true).result = .ok none ∧
    (fetchAPI envOkEmpty 5 stTokens "users/profile/" "GET" none false true).result =
      .ok (some (.obj [])) := by
  constructor
  · exact (fetchAPI_204_and_json env204 0 [] "academic/courses/" "GET" none false true
      res204 rfl).1 rfl
  · exact (fetchAPI_204_and_json envOkEmpty 5 stTokens "users/profile/" "GET" none false true
      (res200 (.obj [])) rfl).2 rfl (by decide) _ rfl

/-- C3 (amended): when the refresh succeeds but the reissued request
again returns 401, the call fails with the generic HTTP error embedding
status 401 and the body text of the second response — not the
session-expired error — and storage is not cleared: it holds the
refreshed access token and the untouched refresh token.  (The
session-expired error with storage clearing occurs only when the refresh
itself fails; the source returns the retried promise without awaiting it
inside the try block, so the second 401 bypasses the cleanup catch.) -/
theorem fetchAPI_second401_behavior (env : Env) (n : Nat) (st : Storage)
    (e m : String) (b : Option Json) (f : Bool) (r0 r2 : Response) (a : String)
    (h : env n = .ok r0) (h401 : r0.status = 401)
    (hr : (refreshToken env (n + 1) st).result = .ok a)
    (h2 : env (refreshToken env (n + 1) st).next = .ok r2) (h2401 : r2.status = 401) :
    (fetchAPI env n st e m b f true).result = .error (.httpError 401 r2.bodyText) ∧
    (fetchAPI env n st e m b f true).store = setItem st accessKey a ∧
    getItem (fetchAPI env n st e m b f true).store refreshKey = getItem st refreshKey := by
  obtain ⟨_, hst, hres⟩ := fetchAPI_401_refresh_ok env n st e m b f r0 a h h401 hr
  have hstore := refreshToken_ok_store env (n + 1) st a hr
  have hgo : (fetchAPIGo env (refreshToken env (n + 1) st).next
      (refreshToken env (n + 1) st).store e m b f).result =
      .error (.httpError 401 r2.bodyText) := by
    simp only [fetchAPIGo, h2]
    simp [handleOk, Response.ok, h2401]
  refine ⟨?_, ?_, ?_⟩
  · rw [hres, hgo]
  · rw [hst, fetchAPIGo_store, hstore]
  · rw [hst, fetchAPIGo_store, hstore,
      getItem_setItem_ne _ _ _ _ accessKey_ne_refreshKey]

/-- C3 witness: the concrete 401 / refresh-ok / 401 run ends in the
HTTP-401 error with the refreshed access token stored and the refresh
token untouched. -/
theorem fetchAPI_second401_behavior_witness :
    (fetchAPI envRefreshThen401 0 stTokens "users/profile/" "GET" none false true).result =
      .error (.httpError 401 res401.bodyText) ∧
    (fetchAPI envRefreshThen401 0 stTokens "users/profile/" "GET" none false true).store =
      setItem stTokens accessKey "NEW" ∧
    getItem (fetchAPI envRefreshThen401 0 stTokens "users/profile/" "GET" none false
      true).store refreshKey = getItem stTokens refreshKey :=
  fetchAPI_second401_behavior envRefreshThen401 0 stTokens "users/profile/" "GET" none
    false res401 res401 "NEW" rfl rfl rfl rfl rfl

/-- C4 (amended): for every login call whose response body wraps the
tokens as data.access = "A1" and data.refresh = "R1" — the shape the
source code reads — after the call completes the stored access token is
"A1", the stored refresh token is "R1", and the call resolves with the
response. -/
theorem login_stores_wrapped_tokens (env : Env) (n : Nat) (st : Storage)
    (creds : Json) (j : Json) (dataV : Option Json)
    (h : (fetchAPI env n st "auth/login/" "POST" (some creds) false true).result =
      .ok (some j))
    (hd : jsIndex (some j) "data" = .ok dataV)
    (ha : jsIndex dataV "access" = .ok (some (.str "A1")))
    (hr : jsIndex dataV "refresh" = .ok (some (.str "R1"))) :
    getItem (login env n st creds).store accessKey = some "A1" ∧
    getItem (login env n st creds).store refreshKey = some "R1" ∧
    (login env n st creds).result = .ok (some j) := by
  have h1 : jsonTruthy (some (Json.str "A1")) = true := rfl
  have h2 : jsonTruthy (some (Json.str "R1")) = true := rfl
  have hsA : jsToString (some (Json.str "A1")) = "A1" := rfl
  have hsR : jsToString (some (Json.str "R1")) = "R1" := rfl
  simp only [login, h, hd, ha, hr, h1, h2, hsA, hsR, Bool.true_eq_false, if_false]
  refine ⟨?_, ?_, trivial⟩
  · rw [getItem_setItem_ne _ _ _ _ (Ne.symm accessKey_ne_refreshKey), getItem_setItem_self]
  · rw [getItem_setItem_self]

/-- C4 witness: the concrete wrapped login response stores both tokens. -/
theorem login_stores_wrapped_tokens_witness :
    getItem (login envLoginWrapped 0 [] credsEx).store accessKey = some "A1" ∧
    getItem (login envLoginWrapped 0 [] credsEx).store refreshKey = some "R1" ∧
    (login envLoginWrapped 0 [] credsEx).result =
      .ok (some (.obj [("data", .obj [("access", .str "A1"), ("refresh", .str "R1")])])) :=
  login_stores_wrapped_tokens envLoginWrapped 0 [] credsEx
    (.obj [("data", .obj [("access", .str "A1"), ("refresh", .str "R1")])])
    (some (.obj [("access", .str "A1"), ("refresh", .str "R1")])) rfl rfl rfl rfl

/-- C1 counterexample: a call whose first response is a 401 with retry
true performs its single refresh attempt, but storage holds no refresh
token, so the attempt fails and no reissued request occurs — against the
claimed unconditional "exactly one reissued request". -/
theorem fetchAPI_401_no_reissue_cex :
    env401 0 = .ok res401 ∧ res401.status = 401 ∧
    (fetchAPI env401 0 [] "users/profile/" "GET" none false true).events.countP
      isRefreshCall = 1 ∧
    (fetchAPI env401 0 [] "users/profile/" "GET" none false true).events.countP
      isReissuedRequest = 0 :=
  ⟨rfl, rfl, rfl, rfl⟩

/-- C3 counterexample: the refresh succeeds and the reissued request
returns 401 again; the call then fails with the generic HTTP error, not
the session-expired error, and storage is not cleared — it still holds
the refresh token and now the refreshed access token. -/
theorem fetchAPI_second401_cex :
    (fetchAPI envRefreshThen401 0 stTokens "users/profile/" "GET" none false true).result =
      .error (.httpError 401 "unauthorized") ∧
    getItem (fetchAPI envRefreshThen401 0 stTokens "users/profile/" "GET" none false
      true).store refreshKey = some "R1" ∧
    getItem (fetchAPI envRefreshThen401 0 stTokens "users/profile/" "GET" none false
      true).store accessKey = some "NEW" :=
  ⟨rfl, rfl, rfl⟩

/-- C4 counterexample: when the login response body is the flat object
with access "A1" and refresh "R1" (exactly the shape the claim states),
the source reads res.data.access on an absent data field, so the call
throws a TypeError and neither token is stored. -/
theorem login_flat_response_cex :
    (login envLoginFlat 0 [] credsEx).result = .error .typeError ∧
    getItem (login envLoginFlat 0 [] credsEx).store accessKey = none ∧
    getItem (login envLoginFlat 0 [] credsEx).store refreshKey = none :=
  ⟨rfl, rfl, rfl⟩

/-- C7: after a successful refreshToken the stored access token equals
the access value returned by the refresh endpoint, the stored refresh
token is unchanged, and the request reissued after a 401 carries the
bearer Authorization header with that new value. -/
theorem refresh_success_token_flow (env : Env) (n : Nat) (st : Storage)
    (e m : String) (b : Option Json) (f : Bool) (r0 rr : Response) (d : Json) (a : String)
    (h : env n = .ok r0) (h401 : r0.status = 401)
    (htr : truthy (getRefreshToken st) = true)
    (h1 : env (n + 1) = .ok rr) (hok : rr.ok = true)
    (hj : rr.bodyJson = some d)
    (hacc : jsIndex (some d) "access" = .ok (some (.str a)))
    (hne : truthy (some a) = true) :
    (refreshToken env (n + 1) st).result = .ok a ∧
    getItem (refreshToken env (n + 1) st).store accessKey = some a ∧
    getItem (refreshToken env (n + 1) st).store refreshKey = getItem st refreshKey ∧
    ((fetchAPI env n st e m b f true).events =
      .apiRequest true (buildRequest st e m b f) ::
        (refreshToken env (n + 1) st).events ++
        [.apiRequest false (buildRequest (refreshToken env (n + 1) st).store e m b f)] ∧
      ("Authorization", "Bearer " ++ a) ∈
        (buildRequest (refreshToken env (n + 1) st).store e m b f).headers) := by
  have hR : (refreshToken env (n + 1) st).result = .ok a := by
    simp only [refreshToken, htr, Bool.true_eq_false, if_false, h1, hok, hj, hacc,
      jsToString]
  have hS := refreshToken_ok_store env (n + 1) st a hR
  have hga : getAccessToken (refreshToken env (n + 1) st).store = some a := by
    rw [hS]
    exact getItem_setItem_self st accessKey a
  obtain ⟨hev, _, _⟩ := fetchAPI_401_refresh_ok env n st e m b f r0 a h h401 hR
  refine ⟨hR, ?_, ?_, ?_, ?_⟩
  · rw [hS]
    exact getItem_setItem_self st accessKey a
  · rw [hS, getItem_setItem_ne _ _ _ _ accessKey_ne_refreshKey]
  · rw [hev, fetchAPIGo_events]
  · cases f <;>
      simp [buildRequest, buildHeaders, getDefaultHeaders, bearerHeader, hga, hne]

/-- C7 witness: the concrete refresh stores "NEW", keeps "R1", and the
reissued request carries the new bearer header. -/
theorem refresh_success_token_flow_witness :
    (refreshToken envRefreshThen401 (0 + 1) stTokens).result = .ok "NEW" ∧
    getItem (refreshToken envRefreshThen401 (0 + 1) stTokens).store accessKey =
      some "NEW" ∧
    getItem (refreshToken envRefreshThen401 (0 + 1) stTokens).store refreshKey =
      getItem stTokens refreshKey ∧
    ((fetchAPI envRefreshThen401 0 stTokens "users/profile/" "GET" none false
        true).events =
      .apiRequest true (buildRequest stTokens "users/profile/" "GET" none false) ::
        (refreshToken envRefreshThen401 (0 + 1) stTokens).events ++
        [.apiRequest false (buildRequest
          (refreshToken envRefreshThen401 (0 + 1) stTokens).store
          "users/profile/" "GET" none false)] ∧
      ("Authorization", "Bearer " ++ "NEW") ∈
        (buildRequest (refreshToken envRefreshThen401 (0 + 1) stTokens).store
          "users/profile/" "GET" none false).headers) :=
  refresh_success_token_flow envRefreshThen401 0 stTokens "users/profile/" "GET" none
    false res401 resRefreshOk (.obj [("access", .str "NEW")]) "NEW"
    rfl rfl rfl rfl rfl rfl rfl rfl

/-- C8: refreshToken fails immediately — no HTTP request issued and
storage untouched — with the no-refresh-token error when storage holds no
(truthy) refresh token; when one is present, its single request is a POST
to the fixed refresh endpoint carrying exactly the JSON content-type
header (never a bearer Authorization header); and when the refresh
response is non-ok the operation fails with the unable-to-refresh
error. -/
theorem refreshToken_contract (env : Env) (n : Nat) (st : Storage) :
    (truthy (getRefreshToken st) = false →
      refreshToken env n st =
        { events := [.refreshCall], next := n, store := st,
          result := .error .noRefreshToken }) ∧
    (truthy (getRefreshToken st) = true →
      (refreshToken env n st).events =
        [.refreshCall, .refreshRequest (mkRefreshRequest ((getRefreshToken st).getD ""))] ∧
      (mkRefreshRequest ((getRefreshToken st).getD "")).method = "POST" ∧
      (mkRefreshRequest ((getRefreshToken st).getD "")).url =
        API_URL ++ "auth/token/refresh/" ∧
      (mkRefreshRequest ((getRefreshToken st).getD "")).headers =
        [("Content-Type", "application/json")]) ∧
    (∀ rr, truthy (getRefreshToken st) = true → env n = .ok rr → rr.ok = false →
      (refreshToken env n st).result = .error .unableToRefresh) := by
  refine ⟨?_, ?_, ?_⟩
  · intro ht
    simp [refreshToken, ht]
  · intro ht
    refine ⟨?_, rfl, rfl, rfl⟩
    simp only [refreshToken, ht, Bool.true_eq_false, if_false]
    cases env n with
    | error u => rfl
    | ok res =>
      by_cases hok : res.ok = false
      · simp only [hok, if_pos]
      · have hok2 : res.ok = true := by
          cases hb : res.ok
          · exact absurd hb hok
          · rfl
        simp only [hok2, Bool.true_eq_false, if_false]
        cases res.bodyJson with
        | none => rfl
        | some d =>
          rcases hacc2 : jsIndex (some d) "access" with e0 | acc <;> simp [hacc2]
  · intro rr ht henv hok
    simp [refreshToken, ht, henv, hok]

/-- C8 witness: with empty storage the operation fails immediately with
no request; with a stored refresh token and a non-ok refresh response it
fails with the unable-to-refresh error. -/
theorem refreshToken_contract_witness :
    refreshToken env401 7 [] =
      { events := [.refreshCall], next := 7, store := [],
        result := .error .noRefreshToken } ∧
    (refreshToken env401 0 stTokens).result = .error .unableToRefresh :=
  ⟨(refreshToken_contract env401 7 []).1 rfl,
   (refreshToken_contract env401 0 stTokens).2.2 res401 rfl rfl rfl⟩

/-- C10 (amended): a fetchAPI call that fails with a transport error, a
parse error, or an HTTP-status error never removes tokens; its final
storage is the initial storage, except that when a 401 with retry
eligible triggered a successful refresh before the failing response, the
access token — and only it — is overwritten with the refreshed value.
The failed-refresh cleanup (removal of both) happens only on the
session-expired path, which is not one of these failures. -/
theorem fetchAPI_token_frame (env : Env) (n : Nat) (st : Storage) (e m : String)
    (b : Option Json) (f r : Bool) (err : ClientError)
    (h : (fetchAPI env n st e m b f r).result = .error err)
    (hk : isLocalFailure err = true) :
    getItem (fetchAPI env n st e m b f r).store refreshKey = getItem st refreshKey ∧
    ((fetchAPI env n st e m b f r).store = st ∨
      ∃ r0 a, env n = .ok r0 ∧ r0.status = 401 ∧ r = true ∧
        (refreshToken env (n + 1) st).result = .ok a ∧
        (fetchAPI env n st e m b f r).store = setItem st accessKey a) := by
  cases r
  · constructor
    · rw [fetchAPI_false, fetchAPIGo_store]
    · left
      rw [fetchAPI_false, fetchAPIGo_store]
  · cases henv : env n with
    | error u =>
      have hu : env n = .error () := by
        cases u
        exact henv
      rw [fetchAPI_netError env n st e m b f hu]
      exact ⟨rfl, .inl rfl⟩
    | ok res =>
      by_cases h4 : res.status = 401
      · rcases hrr : (refreshToken env (n + 1) st).result with e0 | a
        · obtain ⟨_, _, hres⟩ := fetchAPI_401_refresh_err env n st e m b f res e0 henv h4 hrr
          rw [h] at hres
          injection hres with hcc
          rw [hcc] at hk
          simp [isLocalFailure] at hk
        · obtain ⟨_, hst, _⟩ := fetchAPI_401_refresh_ok env n st e m b f res a henv h4 hrr
          have hstore := refreshToken_ok_store env (n + 1) st a hrr
          constructor
          · rw [hst, fetchAPIGo_store, hstore,
              getItem_setItem_ne _ _ _ _ accessKey_ne_refreshKey]
          · right
            exact ⟨res, a, rfl, h4, rfl, rfl, by rw [hst, fetchAPIGo_store, hstore]⟩
      · rw [fetchAPI_non401 env n st e m b f res henv h4]
        exact ⟨rfl, .inl rfl⟩

/-- C10 witness: a concrete 500 failure leaves both tokens exactly as
they were. -/
theorem fetchAPI_token_frame_witness :
    getItem (fetchAPI env500 0 stTokens "users/profile/" "GET" none false true).store
      refreshKey = getItem stTokens refreshKey ∧
    ((fetchAPI env500 0 stTokens "users/profile/" "GET" none false true).store =
        stTokens ∨
      ∃ r0 a, env500 0 = .ok r0 ∧ r0.status = 401 ∧ true = true ∧
        (refreshToken env500 (0 + 1) stTokens).result = .ok a ∧
        (fetchAPI env500 0 stTokens "users/profile/" "GET" none false true).store =
          setItem stTokens accessKey a) :=
  fetchAPI_token_frame env500 0 stTokens "users/profile/" "GET" none false true
    (.httpError 500 "boom") rfl rfl

/-- C10 counterexample: a call that fails with a non-ok non-401 HTTP
response (500 on the reissue) after a 401 triggered a successful refresh:
the stored access token changed from "OLD" to "NEW" across the failing
call. -/
theorem fetchAPI_frame_cex :
    (fetchAPI envRefreshThen500 0 stTokens "users/profile/" "GET" none false true).result =
      .error (.httpError 500 "boom") ∧
    getItem stTokens accessKey = some "OLD" ∧
    getItem (fetchAPI envRefreshThen500 0 stTokens "users/profile/" "GET" none false
      true).store accessKey = some "NEW" :=
  ⟨rfl, rfl, rfl⟩

end CampHub
